import Mathlib

/-!
Verification of the Isaac Sim installer utility (`isaacsim_installer.py`).

Two layers are embedded:

1. The retryable external-command execution primitive (`CommandRunner`),
   the core named by the specification.  The repository ships successive
   versions of the utility; the version holding the retry runner is not
   among the shipped sources, so the runner is modelled from the
   specification's algorithm (definitions below marked `Modelled from the
   spec:`), with the external process abstracted as a sequence of attempt
   outcomes.

2. The shipped GUI variant (`IsaacSimInstaller`): script generation,
   temp-file handling, background spawn, and the polling monitor, embedded
   as a deterministic step function over an explicit system state with an
   event trace recording all externally visible actions.
-/

/-! ## Part 1: the CommandRunner retry primitive -/

/-- Modelled from the spec: what one attempt of an external command can do.
The process either runs to completion with an exit code, having produced a
sequence of output lines, or spawning/communication raises an error. -/
inductive AttemptOutcome where
  | exits (code : Int) (outputLines : List String)
  | spawnErr (msg : String)
deriving DecidableEq

/-- Modelled from the spec: the runner's final outcome — success, a
`CommandFailed` error carrying the command text and exit status, or the
final spawn error re-raised unmodified. -/
inductive RunResult where
  | success
  | commandFailed (cmd : String) (code : Int)
  | spawnFailed (msg : String)
deriving DecidableEq

/-- Modelled from the spec: everything observable about one invocation of
the runner — its result, how many attempts were made, the sequence of
backoff delays slept (in time units, in order), and the echoed output. -/
structure RunStats where
  result : RunResult
  attemptsMade : Nat
  delays : List Nat
  output : List String
deriving DecidableEq

/-- Modelled from the spec: the retry loop, recursing on the number of
permitted attempts still remaining (`fuel`); `attempt` is the 0-indexed
number of the current attempt.  Exit status zero returns success
immediately; on the final permitted attempt a failure becomes
`CommandFailed` (or the spawn error re-raised); earlier failures sleep
`2^attempt` units and retry. -/
def runFrom (cmd : String) (outcomes : Nat → AttemptOutcome) :
    Nat → Nat → RunStats
  | _, 0 => ⟨.success, 0, [], []⟩
  | attempt, 1 =>
    match outcomes attempt with
    | .exits c ls =>
      if c = 0 then ⟨.success, 1, [], ls⟩ else ⟨.commandFailed cmd c, 1, [], ls⟩
    | .spawnErr e => ⟨.spawnFailed e, 1, [], []⟩
  | attempt, fuel + 2 =>
    match outcomes attempt with
    | .exits c ls =>
      if c = 0 then ⟨.success, 1, [], ls⟩
      else
        let rest := runFrom cmd outcomes (attempt + 1) (fuel + 1)
        ⟨rest.result, rest.attemptsMade + 1, 2 ^ attempt :: rest.delays,
          ls ++ rest.output⟩
    | .spawnErr _ =>
      let rest := runFrom cmd outcomes (attempt + 1) (fuel + 1)
      ⟨rest.result, rest.attemptsMade + 1, 2 ^ attempt :: rest.delays,
        rest.output⟩

/-- Modelled from the spec: the default maximum attempt count. -/
def defaultMaxRetries : Nat := 3

/-- Modelled from the spec: run a command with at most `maxRetries`
attempts, starting from attempt 0. -/
def commandRunner (cmd : String) (maxRetries : Nat)
    (outcomes : Nat → AttemptOutcome) : RunStats :=
  runFrom cmd outcomes 0 maxRetries

/-- An attempt outcome that the runner treats as a failure: a non-zero
exit status, or any spawn/communication error. -/
def attemptFails : AttemptOutcome → Prop
  | .exits c _ => c ≠ 0
  | .spawnErr _ => True

/-- The error the runner raises when the given outcome was the final
attempt's. -/
def failureResult (cmd : String) : AttemptOutcome → RunResult
  | .exits c _ => .commandFailed cmd c
  | .spawnErr e => .spawnFailed e

/-- Modelled from the spec: the output-forwarding loop — each line is
appended to the already-emitted output as soon as it is read. -/
def echoStream (emitted : List String) : List String → List String
  | [] => emitted
  | l :: ls => echoStream (emitted ++ [l]) ls

theorem echoStream_eq (acc ls : List String) :
    echoStream acc ls = acc ++ ls := by
  induction ls generalizing acc with
  | nil => simp [echoStream]
  | cons l ls ih => simp [echoStream, ih]

theorem range_pow_shift (a k : Nat) :
    (List.range (k + 1)).map (fun i => 2 ^ (a + i))
      = 2 ^ a :: (List.range k).map (fun i => 2 ^ (a + 1 + i)) := by
  rw [List.range_succ_eq_map]
  simp only [List.map_cons, List.map_map, Nat.add_zero]
  congr 1
  apply List.map_congr_left
  intro i _
  simp only [Function.comp]
  congr 1
  omega

/-- If every attempt in the window `[attempt, attempt + fuel)` fails, the
runner makes exactly `fuel` attempts, sleeps `2^attempt, 2^(attempt+1), …`
between consecutive attempts, and raises the failure of the final
attempt. -/
theorem runFrom_all_fail (cmd : String) (o : Nat → AttemptOutcome) :
    ∀ fuel attempt, 1 ≤ fuel →
    (∀ i, attempt ≤ i → i < attempt + fuel → attemptFails (o i)) →
    (runFrom cmd o attempt fuel).result
        = failureResult cmd (o (attempt + fuel - 1)) ∧
    (runFrom cmd o attempt fuel).attemptsMade = fuel ∧
    (runFrom cmd o attempt fuel).delays
        = (List.range (fuel - 1)).map (fun i => 2 ^ (attempt + i)) := by
  intro fuel
  induction fuel with
  | zero => intro attempt h; omega
  | succ n ih =>
    intro attempt _ hfail
    match n with
    | 0 =>
      have h0 : attemptFails (o attempt) := hfail attempt (le_refl _) (by omega)
      cases ho : o attempt with
      | exits c ls =>
        rw [ho] at h0
        simp only [attemptFails] at h0
        simp [runFrom, ho, h0, failureResult]
      | spawnErr e =>
        simp [runFrom, ho, failureResult]
    | k + 1 =>
      have h0 : attemptFails (o attempt) := hfail attempt (le_refl _) (by omega)
      have hrest := ih (attempt + 1) (by omega)
        (fun i h1 h2 => hfail i (by omega) (by omega))
      obtain ⟨hr, ha, hd⟩ := hrest
      have hidx : attempt + 1 + (k + 1) - 1 = attempt + (k + 1 + 1) - 1 := by omega
      rw [hidx] at hr
      cases ho : o attempt with
      | exits c ls =>
        rw [ho] at h0
        simp only [attemptFails] at h0
        refine ⟨?_, ?_, ?_⟩
        · simp [runFrom, ho, h0, hr]
        · simp [runFrom, ho, h0, ha]
        · simp only [runFrom, ho, h0, if_neg h0, hd]
          rw [show k + 1 + 1 - 1 = k + 1 from rfl, range_pow_shift attempt k]
          simp
      | spawnErr e =>
        refine ⟨?_, ?_, ?_⟩
        · simp [runFrom, ho, hr]
        · simp [runFrom, ho, ha]
        · simp only [runFrom, ho, hd]
          rw [show k + 1 + 1 - 1 = k + 1 from rfl, range_pow_shift attempt k]
          simp

/-- C1: if the external process exits non-zero on every attempt up to the
configured maximum `m` (default 3), the runner raises `CommandFailed`
exactly once — as the single final result — carrying the exit status and
the command text, after exactly `m` attempts, sleeping `2^attempt` units
between consecutive attempts (delays `2^0, 2^1, …, 2^(m-2)`). -/
theorem C1_exhausted_retries_raise_commandFailed (cmd : String) (m : Nat)
    (o : Nat → AttemptOutcome) (c : Int) (ls : List String)
    (hm : 1 ≤ m)
    (hfail : ∀ i, i < m → ∃ ci lsi, o i = .exits ci lsi ∧ ci ≠ 0)
    (hlast : o (m - 1) = .exits c ls) :
    (commandRunner cmd m o).result = .commandFailed cmd c ∧
    (commandRunner cmd m o).attemptsMade = m ∧
    (commandRunner cmd m o).delays = (List.range (m - 1)).map (fun i => 2 ^ i) := by
  have h := runFrom_all_fail cmd o m 0 hm (fun i _ h2 => by
    obtain ⟨ci, lsi, hoi, hci⟩ := hfail i (by omega)
    rw [hoi]
    simpa [attemptFails] using hci)
  obtain ⟨hr, ha, hd⟩ := h
  refine ⟨?_, ha, ?_⟩
  · rw [commandRunner, hr, show 0 + m - 1 = m - 1 by omega, hlast, failureResult]
  · rw [commandRunner, hd]
    simp

/-- Witness for C1 at a concrete always-failing command with the default
maximum of 3 attempts. -/
theorem C1_witness :
    (commandRunner "git clone" defaultMaxRetries (fun _ => .exits 1 [])).result
        = .commandFailed "git clone" 1 ∧
    (commandRunner "git clone" defaultMaxRetries (fun _ => .exits 1 [])).attemptsMade
        = defaultMaxRetries ∧
    (commandRunner "git clone" defaultMaxRetries (fun _ => .exits 1 [])).delays
        = (List.range (defaultMaxRetries - 1)).map (fun i => 2 ^ i) :=
  C1_exhausted_retries_raise_commandFailed "git clone" defaultMaxRetries
    (fun _ => .exits 1 []) 1 [] (by decide)
    (fun i _ => ⟨1, [], rfl, by decide⟩) rfl

/-- C2: if the external process exits zero on the first attempt, the
runner returns success after exactly one attempt, inserts no backoff
delay, and makes no further attempts. -/
theorem C2_first_attempt_success (cmd : String) (m : Nat)
    (o : Nat → AttemptOutcome) (ls : List String)
    (hm : 1 ≤ m) (h0 : o 0 = .exits 0 ls) :
    (commandRunner cmd m o).result = .success ∧
    (commandRunner cmd m o).attemptsMade = 1 ∧
    (commandRunner cmd m o).delays = [] := by
  unfold commandRunner
  match m, hm with
  | 1, _ => simp [runFrom, h0]
  | k + 2, _ => simp [runFrom, h0]

/-- Witness for C2 at a concrete command succeeding immediately. -/
theorem C2_witness :
    (commandRunner "pip install" defaultMaxRetries
        (fun _ => .exits 0 ["A"])).result = .success ∧
    (commandRunner "pip install" defaultMaxRetries
        (fun _ => .exits 0 ["A"])).attemptsMade = 1 ∧
    (commandRunner "pip install" defaultMaxRetries
        (fun _ => .exits 0 ["A"])).delays = [] :=
  C2_first_attempt_success "pip install" defaultMaxRetries
    (fun _ => .exits 0 ["A"]) ["A"] (by decide) rfl

/-- C3: the runner forwards the child's combined output stream line by
line: the emitted output equals the child's line sequence (no loss, no
reordering), and after reading any first `k` lines the emitted output is
exactly those `k` lines (forwarded as they become available, not buffered
until completion). -/
theorem C3_output_forwarded_in_order (cmd : String) (c : Int)
    (ls : List String) :
    (commandRunner cmd 1 (fun _ => .exits c ls)).output = ls ∧
    echoStream [] ls = ls ∧
    (∀ k, echoStream [] (ls.take k) = ls.take k) := by
  refine ⟨?_, ?_, ?_⟩
  · by_cases hc : c = 0 <;> simp [commandRunner, runFrom, hc]
  · rw [echoStream_eq]; simp
  · intro k; rw [echoStream_eq]; simp

/-- C4: errors raised while spawning or communicating with the process
are treated identically to a non-zero exit for retry purposes — the
runner makes exactly `m` attempts with the same backoff delays — and the
final attempt's error is re-raised unmodified. -/
theorem C4_spawn_errors_retried_and_reraised (cmd : String) (m : Nat)
    (o : Nat → AttemptOutcome) (e : String)
    (hm : 1 ≤ m)
    (herr : ∀ i, i < m → ∃ ei, o i = .spawnErr ei)
    (hlast : o (m - 1) = .spawnErr e) :
    (commandRunner cmd m o).result = .spawnFailed e ∧
    (commandRunner cmd m o).attemptsMade = m ∧
    (commandRunner cmd m o).delays = (List.range (m - 1)).map (fun i => 2 ^ i) := by
  have h := runFrom_all_fail cmd o m 0 hm (fun i _ h2 => by
    obtain ⟨ei, hoi⟩ := herr i (by omega)
    rw [hoi]
    simp [attemptFails])
  obtain ⟨hr, ha, hd⟩ := h
  refine ⟨?_, ha, ?_⟩
  · rw [commandRunner, hr, show 0 + m - 1 = m - 1 by omega, hlast, failureResult]
  · rw [commandRunner, hd]
    simp

/-- Witness for C4 at a concrete command whose executable is missing on
every attempt. -/
theorem C4_witness :
    (commandRunner "conda activate" defaultMaxRetries
        (fun _ => .spawnErr "No such file or directory")).result
        = .spawnFailed "No such file or directory" ∧
    (commandRunner "conda activate" defaultMaxRetries
        (fun _ => .spawnErr "No such file or directory")).attemptsMade
        = defaultMaxRetries ∧
    (commandRunner "conda activate" defaultMaxRetries
        (fun _ => .spawnErr "No such file or directory")).delays
        = (List.range (defaultMaxRetries - 1)).map (fun i => 2 ^ i) :=
  C4_spawn_errors_retried_and_reraised "conda activate" defaultMaxRetries
    (fun _ => .spawnErr "No such file or directory") "No such file or directory"
    (by decide) (fun i _ => ⟨"No such file or directory", rfl⟩) rfl

/-! ## Part 2: the shipped GUI installer (`IsaacSimInstaller`) -/

/-- The single-quote character, appearing verbatim inside the generated
shell scripts. -/
def squote : String := ⟨[Char.ofNat 39]⟩

/-- Module-level constant `PYTHON_VERSION`. -/
def PYTHON_VERSION : String := "3.11"

/-- Module-level constant `ISAAC_SIM_VERSION`. -/
def ISAAC_SIM_VERSION : String := "5.0.0"

/-- Module-level constant `PYTORCH_VERSION`. -/
def PYTORCH_VERSION : String := "torch==2.2.0 torchvision==0.17.0"

/-- Module-level constant `PYTORCH_INDEX`. -/
def PYTORCH_INDEX : String := "https://download.pytorch.org/whl/cu121"

/-- Module-level constant `ENV_NAME`. -/
def ENV_NAME : String := "isaac_sim_50"

/-- Embedding of `IsaacSimInstaller._generate_script_content`: the full
script text (lines joined with newlines) and the script filename, as a
function of the class-level test-mode flag and the module-level
Windows-platform flag. -/
def _generate_script_content (isTestMode isWindows : Bool) : String × String :=
  if isTestMode then
    if isWindows then
      (String.intercalate "\n"
        ["@echo off",
         "echo Starting test script...",
         "timeout /t 5 /nobreak >nul",
         "echo Test complete."],
       "test_script.bat")
    else
      (String.intercalate "\n"
        ["#!/bin/bash",
         "echo " ++ squote ++ "Starting test script..." ++ squote,
         "sleep 5",
         "echo " ++ squote ++ "Test complete." ++ squote],
       "test_script.sh")
  else
    if isWindows then
      (String.intercalate "\n"
        ["@echo off",
         "echo Starting Isaac Sim Environment Setup for Windows...",
         "conda create -n " ++ ENV_NAME ++ " python=" ++ PYTHON_VERSION ++ " -y",
         "CALL conda activate " ++ ENV_NAME,
         "echo Environment activated. Installing dependencies...",
         "pip install --upgrade pip",
         "pip install " ++ PYTORCH_VERSION ++ " --extra-index-url " ++ PYTORCH_INDEX,
         "pip install \"isaacsim[all,extscache]==" ++ ISAAC_SIM_VERSION
           ++ "\" --extra-index-url https://pypi.nvidia.com",
         "echo Installation complete. Launching Isaac Sim...",
         "isaacsim"],
       "install_script.bat")
    else
      (String.intercalate "\n"
        ["#!/bin/bash",
         "echo " ++ squote ++ "Starting Isaac Sim Environment Setup for Linux/macOS..." ++ squote,
         "conda create -n " ++ ENV_NAME ++ " python=" ++ PYTHON_VERSION ++ " -y",
         "source $(conda info --base)/etc/profile.d/conda.sh",
         "conda activate " ++ ENV_NAME,
         "echo " ++ squote ++ "Environment activated. Installing dependencies..." ++ squote,
         "pip install --upgrade pip",
         "pip install " ++ PYTORCH_VERSION ++ " --extra-index-url " ++ PYTORCH_INDEX,
         "pip install " ++ squote ++ "isaacsim[all,extscache]==" ++ ISAAC_SIM_VERSION
           ++ squote ++ " --extra-index-url https://pypi.nvidia.com",
         "echo " ++ squote ++ "Installation complete. Launching Isaac Sim..." ++ squote,
         "isaacsim"],
       "install_script.sh")

/-- The GUI widget state the installer manipulates: the start button's
enabled flag, whether the progress bar is packed and animating, and the
status label's text. -/
structure Gui where
  buttonEnabled : Bool
  progressShown : Bool
  progressRunning : Bool
  status : String
deriving DecidableEq

/-- The background process as the monitor observes it via `poll()`:
still running (`poll()` is `None`) or exited with a return code. -/
inductive ProcState where
  | running
  | exited (returncode : Int)
deriving DecidableEq

/-- Externally visible actions the installer performs, recorded as an
event trace: temp-file writes, chmod, process spawns, `after(ms, …)`
scheduling, temp-file removal requests, and modal dialogs. -/
inductive Event where
  | writeFile (path content : String)
  | chmodExec (path : String)
  | spawn (argv : List String)
  | afterSchedule (ms : Nat)
  | removeFile (path : String)
  | showInfo (title msg : String)
  | showError (title msg : String)
deriving DecidableEq

/-- Status text set in `__init__` and by `_reset_gui`. -/
def readyStatus : String := "Ready to start installation."

/-- Status text set at the top of `start_installation`. -/
def startedStatus : String := "Installation started in the background. Please wait..."

/-- Status text set on a zero return code in `_monitor_process`. -/
def successStatusMsg : String := "Installation finished successfully!"

/-- Status text set on a non-zero return code in `_monitor_process`. -/
def failedStatusMsg : String := "Installation failed. Please see the error message."

/-- Success dialog text in test mode. -/
def testSuccessMsg : String := "Test completed successfully! The installer logic works."

/-- Success dialog text in real mode. -/
def realSuccessMsg : String :=
  "Isaac Sim installation is complete and should now be launched!"

/-- Failure dialog text shown by `_monitor_process` on a non-zero return
code. -/
def failedDialogMsg : String :=
  "The installation script finished with errors. " ++
  "Please check your Conda installation and try again."

/-- The ready GUI state: button enabled, progress hidden and stopped,
status label showing the ready text (as after `__init__`). -/
def readyGui : Gui := ⟨true, false, false, readyStatus⟩

/-- Embedding of `IsaacSimInstaller._reset_gui`: re-enable the button,
stop and hide the progress bar, restore the ready status text. -/
def _reset_gui : Gui := readyGui

/-- Per-machine run context fixed at program start: the class-level
test-mode flag, the platform flag computed at import, and the system
temp directory returned by `tempfile.gettempdir()`. -/
structure Host where
  isTestMode : Bool
  isWindows : Bool
  tempDir : String
deriving DecidableEq

/-- The script path `os.path.join(tempfile.gettempdir(), filename)`
(path join abstracted with a `/` separator). -/
def scriptPathOf (h : Host) : String :=
  h.tempDir ++ "/" ++ (_generate_script_content h.isTestMode h.isWindows).2

/-- The argument vector passed to `subprocess.Popen`. -/
def argvFor (h : Host) (path : String) : List String :=
  if h.isWindows then ["cmd.exe", "/C", path] else ["nohup", path, "&"]

/-- The whole installer state: widget state, the outstanding background
process (if any), whether a `_monitor_process` callback is scheduled,
the script path bound into that callback, and the event trace. -/
structure Sys where
  gui : Gui
  proc : Option ProcState
  monitorArmed : Bool
  scriptPath : Option String
  events : List Event
deriving DecidableEq

/-- Embedding of `IsaacSimInstaller.start_installation`.  The two
`Option String` arguments are the environment's choice of whether the
temp-file write and the `Popen` spawn raise an exception (`some e`
carries the exception text).  On either exception the handler shows an
error dialog and calls `_reset_gui`; on success the process is spawned
and `_monitor_process` is scheduled via `after(1000, …)`. -/
def start_installation (h : Host) (s : Sys)
    (writeErr spawnErr : Option String) : Sys :=
  let content := (_generate_script_content h.isTestMode h.isWindows).1
  let path := scriptPathOf h
  match writeErr with
  | some e =>
    { s with gui := _reset_gui,
             events := s.events ++
               [.showError "File Error" ("Could not create temporary script: " ++ e)] }
  | none =>
    let evs := [Event.writeFile path content]
        ++ (if h.isWindows then [] else [Event.chmodExec path])
    match spawnErr with
    | some e =>
      { s with gui := _reset_gui,
               events := s.events ++ evs ++
                 [.showError "Execution Error"
                   ("Failed to start installation process. Check Conda setup: " ++ e)] }
    | none =>
      { gui := { buttonEnabled := false, progressShown := true,
                 progressRunning := true, status := startedStatus },
        proc := some .running,
        monitorArmed := true,
        scriptPath := some path,
        events := s.events ++ evs ++ [.spawn (argvFor h path), .afterSchedule 1000] }

/-- Embedding of `IsaacSimInstaller._monitor_process`: if `poll()` is
`None` the callback re-arms itself for 1000 ms; otherwise it stops and
hides the progress bar, requests removal of the temporary script
(exceptions ignored), shows the success or failure dialog according to
the return code, sets the status text, and re-enables the button. -/
def _monitor_process (h : Host) (s : Sys) : Sys :=
  match s.proc, s.scriptPath with
  | some .running, _ =>
    { s with events := s.events ++ [.afterSchedule 1000] }
  | some (.exited rc), some path =>
    { gui := { buttonEnabled := true, progressShown := false,
               progressRunning := false,
               status := if rc = 0 then successStatusMsg else failedStatusMsg },
      proc := none,
      monitorArmed := false,
      scriptPath := none,
      events := s.events ++ [.removeFile path] ++
        [if rc = 0 then
           Event.showInfo "Success"
             (if h.isTestMode then testSuccessMsg else realSuccessMsg)
         else Event.showError "Installation Failed" failedDialogMsg] }
  | _, _ => s

/-- Events the event loop can deliver: a click on the start button (with
the environment's choice of write/spawn exceptions), the background
process exiting with a return code, and a scheduled `_monitor_process`
callback firing. -/
inductive UiAction where
  | click (writeErr spawnErr : Option String)
  | procExit (returncode : Int)
  | monitorFire
deriving DecidableEq

/-- One step of the event loop.  A click on a disabled `ttk.Button` does
not invoke its command, so `click` acts only when the button is enabled;
`monitorFire` acts only when a callback is actually scheduled. -/
def step (h : Host) (s : Sys) : UiAction → Sys
  | .click we se => if s.gui.buttonEnabled then start_installation h s we se else s
  | .procExit rc =>
    match s.proc with
    | some .running => { s with proc := some (.exited rc) }
    | _ => s
  | .monitorFire => if s.monitorArmed then _monitor_process h s else s

/-- The state after `__init__`: ready GUI, no process, no scheduled
callback, empty trace. -/
def initSys : Sys := ⟨readyGui, none, false, none, []⟩

/-- Run the event loop from the initial state over a list of delivered
actions. -/
def runActs (h : Host) (acts : List UiAction) : Sys :=
  acts.foldl (step h) initSys

/-- The file-preparation events of a successful `start_installation`: the
single temp-file write, plus the chmod on non-Windows hosts. -/
def prepEvents (h : Host) : List Event :=
  [Event.writeFile (scriptPathOf h)
      (_generate_script_content h.isTestMode h.isWindows).1]
    ++ (if h.isWindows then [] else [Event.chmodExec (scriptPathOf h)])

/-- All events of a successful `start_installation`: preparation, the
spawn, and the initial `after(1000, …)` scheduling. -/
def spawnEvents (h : Host) : List Event :=
  prepEvents h ++ [.spawn (argvFor h (scriptPathOf h)), .afterSchedule 1000]

/-- The dialog `_monitor_process` raises once the process has exited. -/
def reportEvent (h : Host) (rc : Int) : Event :=
  if rc = 0 then
    Event.showInfo "Success" (if h.isTestMode then testSuccessMsg else realSuccessMsg)
  else Event.showError "Installation Failed" failedDialogMsg

/-- One full installation run delivered to the event loop: a click (no
exceptions), `k` monitor polls while the process is still running, the
process exiting with return code `rc`, and the final monitor poll. -/
def installRun (rc : Int) (k : Nat) : List UiAction :=
  .click none none :: (List.replicate k .monitorFire ++ [.procExit rc, .monitorFire])

/-- The system state right after a successful `start_installation` from
the initial state. -/
def spawnedSys (h : Host) : Sys :=
  ⟨⟨false, true, true, startedStatus⟩, some .running, true,
    some (scriptPathOf h), spawnEvents h⟩

/-- The system state at the end of a full installation run. -/
def finalSys (h : Host) (rc : Int) (k : Nat) : Sys :=
  ⟨⟨true, false, false, if rc = 0 then successStatusMsg else failedStatusMsg⟩,
    none, false, none,
    spawnEvents h ++ List.replicate k (.afterSchedule 1000)
      ++ [.removeFile (scriptPathOf h), reportEvent h rc]⟩

/-- Number of temp-file writes in a trace. -/
def writeEventCount : List Event → Nat
  | [] => 0
  | .writeFile _ _ :: tr => writeEventCount tr + 1
  | _ :: tr => writeEventCount tr

theorem writeEventCount_append (a b : List Event) :
    writeEventCount (a ++ b) = writeEventCount a + writeEventCount b := by
  induction a with
  | nil => simp [writeEventCount]
  | cons ev tr ih =>
    cases ev <;> simp [writeEventCount, ih, Nat.add_right_comm]

theorem writeEventCount_replicate_poll (k : Nat) :
    writeEventCount (List.replicate k (.afterSchedule 1000)) = 0 := by
  induction k with
  | zero => rfl
  | succ n ih => simp [List.replicate_succ, writeEventCount, ih]

/-- Whether `needle` occurs as a contiguous run of characters inside the
haystack. -/
def charsContain (needle : List Char) : List Char → Bool
  | [] => needle.isEmpty
  | c :: cs => needle.isPrefixOf (c :: cs) || charsContain needle cs

/-- Whether `needle` occurs as a substring of `hay`. -/
def strContains (hay needle : String) : Bool :=
  charsContain needle.data hay.data

theorem step_click_ok (h : Host) : step h initSys (.click none none) = spawnedSys h := by
  simp [step, initSys, readyGui, start_installation, spawnedSys, spawnEvents,
    prepEvents, scriptPathOf]

theorem monitor_poll_running (h : Host) (s : Sys)
    (hp : s.proc = some .running) (ha : s.monitorArmed = true) :
    step h s .monitorFire = { s with events := s.events ++ [.afterSchedule 1000] } := by
  simp [step, ha, _monitor_process, hp]

theorem monitor_polls_running (h : Host) (k : Nat) : ∀ s : Sys,
    s.proc = some .running → s.monitorArmed = true →
    List.foldl (step h) s (List.replicate k .monitorFire)
      = { s with events := s.events ++ List.replicate k (.afterSchedule 1000) } := by
  induction k with
  | zero => intro s _ _; simp
  | succ n ih =>
    intro s hp ha
    rw [List.replicate_succ, List.foldl_cons, monitor_poll_running h s hp ha]
    rw [ih { s with events := s.events ++ [.afterSchedule 1000] } hp ha]
    simp [List.replicate_succ]

theorem runActs_installRun (h : Host) (rc : Int) (k : Nat) :
    runActs h (installRun rc k) = finalSys h rc k := by
  unfold runActs installRun
  rw [List.foldl_cons, step_click_ok h, List.foldl_append,
    monitor_polls_running h k (spawnedSys h) rfl rfl]
  simp [List.foldl, step, _monitor_process, spawnedSys, finalSys, reportEvent]

/-- The button-interlock invariant: whenever a background process is
outstanding, the start button is disabled. -/
def buttonInv (s : Sys) : Prop := s.proc.isSome → s.gui.buttonEnabled = false

theorem buttonInv_step (h : Host) (s : Sys) (a : UiAction)
    (hs : buttonInv s) : buttonInv (step h s a) := by
  cases a with
  | click we se =>
    cases hb : s.gui.buttonEnabled with
    | false =>
      have : step h s (.click we se) = s := by simp [step, hb]
      rw [this]; exact hs
    | true =>
      have hp : s.proc = none := by
        cases hproc : s.proc with
        | none => rfl
        | some p =>
          have := hs (by simp [hproc])
          rw [this] at hb; cases hb
      cases we with
      | some e =>
        intro hcontra
        simp [step, hb, start_installation, hp] at hcontra
      | none =>
        cases se with
        | some e =>
          intro hcontra
          simp [step, hb, start_installation, hp] at hcontra
        | none =>
          intro _
          simp [step, hb, start_installation]
  | procExit rc =>
    cases hproc : s.proc with
    | none =>
      have : step h s (.procExit rc) = s := by simp [step, hproc]
      rw [this]; exact hs
    | some p =>
      cases p with
      | running =>
        intro _
        have hb := hs (by simp [hproc])
        simpa [step, hproc] using hb
      | exited rc0 =>
        have : step h s (.procExit rc) = s := by simp [step, hproc]
        rw [this]; exact hs
  | monitorFire =>
    cases ha : s.monitorArmed with
    | false =>
      have : step h s .monitorFire = s := by simp [step, ha]
      rw [this]; exact hs
    | true =>
      cases hproc : s.proc with
      | none =>
        have : step h s .monitorFire = s := by simp [step, ha, _monitor_process, hproc]
        rw [this]; exact hs
      | some p =>
        cases p with
        | running =>
          rw [monitor_poll_running h s hproc ha]
          exact hs
        | exited rc =>
          cases hsp : s.scriptPath with
          | none =>
            have : step h s .monitorFire = s := by
              simp [step, ha, _monitor_process, hproc, hsp]
            rw [this]; exact hs
          | some path =>
            intro hcontra
            simp [step, ha, _monitor_process, hproc, hsp] at hcontra

theorem buttonInv_runActs (h : Host) (acts : List UiAction) :
    buttonInv (runActs h acts) := by
  have hinit : buttonInv initSys := by intro hp; simp [initSys] at hp
  suffices H : ∀ s, buttonInv s → buttonInv (List.foldl (step h) s acts) from
    H initSys hinit
  induction acts with
  | nil => intro s hs; simpa using hs
  | cons a tl ih =>
    intro s hs
    rw [List.foldl_cons]
    exact ih _ (buttonInv_step h s a hs)

/-- C6: in the GUI variant, an exception raised while writing the
temporary script or while spawning the background process is caught, an
error dialog carrying the exception text is shown, and the interface is
reset to its ready state (button re-enabled, progress hidden, status back
to the ready text) so the operator can retry. -/
theorem C6_gui_errors_caught_dialog_and_reset (h : Host) (s : Sys) (e : String)
    (hb : s.gui.buttonEnabled = true) :
    step h s (.click (some e) none)
      = { s with
            gui := readyGui
            events := s.events ++
              [.showError "File Error" ("Could not create temporary script: " ++ e)] } ∧
    step h s (.click none (some e))
      = { s with
            gui := readyGui
            events := s.events ++ prepEvents h ++
              [.showError "Execution Error"
                ("Failed to start installation process. Check Conda setup: " ++ e)] } := by
  constructor <;>
    simp [step, hb, start_installation, _reset_gui, prepEvents, scriptPathOf]

/-- Witness for C6: a concrete write exception and a concrete spawn
exception from the initial state. -/
theorem C6_witness :
    step ⟨true, false, "/tmp"⟩ initSys (.click (some "Permission denied") none)
      = { initSys with
            gui := readyGui
            events := initSys.events ++
              [.showError "File Error"
                ("Could not create temporary script: " ++ "Permission denied")] } ∧
    step ⟨true, false, "/tmp"⟩ initSys (.click none (some "Permission denied"))
      = { initSys with
            gui := readyGui
            events := initSys.events ++ prepEvents ⟨true, false, "/tmp"⟩ ++
              [.showError "Execution Error"
                ("Failed to start installation process. Check Conda setup: "
                  ++ "Permission denied")] } :=
  C6_gui_errors_caught_dialog_and_reset ⟨true, false, "/tmp"⟩ initSys
    "Permission denied" rfl

/-- C7: in every installation run (any return code `rc`, any number `k`
of polls while the process runs), exactly one temporary script file is
written, the write precedes the spawn, and after the process is observed
to have exited the same path is removed — regardless of the exit
status. -/
theorem C7_one_temp_file_written_then_removed (h : Host) (rc : Int) (k : Nat) :
    (runActs h (installRun rc k)).events
      = spawnEvents h ++ List.replicate k (.afterSchedule 1000)
        ++ [.removeFile (scriptPathOf h), reportEvent h rc] ∧
    writeEventCount (runActs h (installRun rc k)).events = 1 := by
  have hrun := runActs_installRun h rc k
  constructor
  · rw [hrun]; rfl
  · rw [hrun]
    cases hw : h.isWindows <;> by_cases hrc : rc = 0 <;>
      simp [finalSys, spawnEvents, prepEvents, reportEvent, hw, hrc,
        writeEventCount, writeEventCount_append, writeEventCount_replicate_poll]

/-- C8: whenever a background process is outstanding the start button is
disabled, and a click delivered in that state is a no-op — in particular
it spawns no second background process (the state, trace included, is
unchanged). -/
theorem C8_click_while_in_flight_spawns_nothing (h : Host)
    (acts : List UiAction) (we se : Option String)
    (hout : (runActs h acts).proc.isSome) :
    (runActs h acts).gui.buttonEnabled = false ∧
    step h (runActs h acts) (.click we se) = runActs h acts := by
  have hb := buttonInv_runActs h acts hout
  exact ⟨hb, by simp [step, hb]⟩

/-- Witness for C8: right after a successful click the process is
outstanding, the button is disabled, and a second click changes
nothing. -/
theorem C8_witness :
    (runActs ⟨true, false, "/tmp"⟩ [.click none none]).gui.buttonEnabled = false ∧
    step ⟨true, false, "/tmp"⟩ (runActs ⟨true, false, "/tmp"⟩ [.click none none])
        (.click none none)
      = runActs ⟨true, false, "/tmp"⟩ [.click none none] :=
  C8_click_while_in_flight_spawns_nothing ⟨true, false, "/tmp"⟩
    [.click none none] none none (by decide)

/-- C9: a scheduled monitor callback observing a still-running process
only re-arms itself for another 1000 ms tick — no cleanup, no dialog, no
other state change; once it observes the process exited it removes the
temporary file and reports success or failure, re-enabling the button.
Status is never reported while the process still runs. -/
theorem C9_monitor_rearms_until_exit_then_reports (h : Host) (s : Sys)
    (rc : Int) (path : String)
    (ha : s.monitorArmed = true) :
    (s.proc = some .running →
      step h s .monitorFire = { s with events := s.events ++ [.afterSchedule 1000] }) ∧
    (s.proc = some (.exited rc) → s.scriptPath = some path →
      step h s .monitorFire
        = { gui := ⟨true, false, false,
              if rc = 0 then successStatusMsg else failedStatusMsg⟩
            proc := none
            monitorArmed := false
            scriptPath := none
            events := s.events ++ [.removeFile path, reportEvent h rc] }) := by
  constructor
  · intro hp
    exact monitor_poll_running h s hp ha
  · intro hp hsp
    simp [step, ha, _monitor_process, hp, hsp, reportEvent]

/-- Witness for C9: the freshly spawned state is still running, so the
poll only re-arms; an exited state with the script path bound is cleaned
up and reported. -/
theorem C9_witness :
    ((spawnedSys ⟨true, false, "/tmp"⟩).proc = some .running →
      step ⟨true, false, "/tmp"⟩ (spawnedSys ⟨true, false, "/tmp"⟩) .monitorFire
        = { spawnedSys ⟨true, false, "/tmp"⟩ with
              events := (spawnedSys ⟨true, false, "/tmp"⟩).events
                ++ [.afterSchedule 1000] }) ∧
    ((spawnedSys ⟨true, false, "/tmp"⟩).proc = some (.exited 0) →
      (spawnedSys ⟨true, false, "/tmp"⟩).scriptPath = some "/tmp/test_script.sh" →
      step ⟨true, false, "/tmp"⟩ (spawnedSys ⟨true, false, "/tmp"⟩) .monitorFire
        = { gui := ⟨true, false, false,
              if (0 : Int) = 0 then successStatusMsg else failedStatusMsg⟩
            proc := none
            monitorArmed := false
            scriptPath := none
            events := (spawnedSys ⟨true, false, "/tmp"⟩).events
              ++ [.removeFile "/tmp/test_script.sh",
                  reportEvent ⟨true, false, "/tmp"⟩ 0] }) :=
  C9_monitor_rearms_until_exit_then_reports ⟨true, false, "/tmp"⟩
    (spawnedSys ⟨true, false, "/tmp"⟩) 0 "/tmp/test_script.sh" rfl

/-- C5 (amended): every failure path of an installation run surfaces a
modal error dialog — a write exception, a spawn exception, and a
non-zero exit each end with a `showError` dialog; no failure path is
silent.  (The dialog text for a non-zero exit does not carry the failing
command or the exit code; see the counterexample.) -/
theorem C5_every_failure_shows_dialog (h : Host) (s : Sys) (e : String)
    (rc : Int) (path : String)
    (hb : s.gui.buttonEnabled = true) (ha : s.monitorArmed = true) :
    (step h s (.click (some e) none)).events.getLast?
        = some (.showError "File Error"
            ("Could not create temporary script: " ++ e)) ∧
    (step h s (.click none (some e))).events.getLast?
        = some (.showError "Execution Error"
            ("Failed to start installation process. Check Conda setup: " ++ e)) ∧
    (s.proc = some (.exited rc) → s.scriptPath = some path → rc ≠ 0 →
      (step h s .monitorFire).events.getLast?
        = some (.showError "Installation Failed" failedDialogMsg)) := by
  refine ⟨?_, ?_, ?_⟩
  · simp [step, hb, start_installation, List.getLast?_concat]
  · cases hw : h.isWindows <;>
      simp [step, hb, start_installation, hw, List.getLast?_concat,
        List.getLast?_cons_cons, List.getLast?_singleton]
  · intro hp hsp hrc
    simp [step, ha, _monitor_process, hp, hsp, hrc, List.getLast?_concat]

/-- Witness for C5: a state with the button enabled, a scheduled monitor
callback, an exited process with return code 1 and a bound script path;
all three failure paths end with an error dialog. -/
theorem C5_witness :
    (step ⟨true, false, "/tmp"⟩
        ⟨readyGui, some (.exited 1), true, some "/tmp/test_script.sh", []⟩
        (.click (some "disk full") none)).events.getLast?
        = some (.showError "File Error"
            ("Could not create temporary script: " ++ "disk full")) ∧
    (step ⟨true, false, "/tmp"⟩
        ⟨readyGui, some (.exited 1), true, some "/tmp/test_script.sh", []⟩
        (.click none (some "disk full"))).events.getLast?
        = some (.showError "Execution Error"
            ("Failed to start installation process. Check Conda setup: "
              ++ "disk full")) ∧
    ((⟨readyGui, some (.exited 1), true, some "/tmp/test_script.sh", []⟩ : Sys).proc
          = some (.exited 1) →
      (⟨readyGui, some (.exited 1), true, some "/tmp/test_script.sh", []⟩ : Sys).scriptPath
          = some "/tmp/test_script.sh" → (1 : Int) ≠ 0 →
      (step ⟨true, false, "/tmp"⟩
          ⟨readyGui, some (.exited 1), true, some "/tmp/test_script.sh", []⟩
          .monitorFire).events.getLast?
        = some (.showError "Installation Failed" failedDialogMsg)) :=
  C5_every_failure_shows_dialog ⟨true, false, "/tmp"⟩
    ⟨readyGui, some (.exited 1), true, some "/tmp/test_script.sh", []⟩
    "disk full" 1 "/tmp/test_script.sh" rfl rfl

/-- Counterexample to C5 as stated: in the run where the script exits
with status 1, the failure is surfaced by the "Installation Failed"
dialog and the status text, but neither text contains the exit code
("1"), the script name, or the script path — the surfaced text names
neither the failing command nor the exit code. -/
theorem C5_counterexample :
    (runActs ⟨true, false, "/tmp"⟩ (installRun 1 0)).events.getLast?
        = some (.showError "Installation Failed" failedDialogMsg) ∧
    (runActs ⟨true, false, "/tmp"⟩ (installRun 1 0)).gui.status = failedStatusMsg ∧
    strContains failedDialogMsg "1" = false ∧
    strContains failedDialogMsg "test_script" = false ∧
    strContains failedDialogMsg (scriptPathOf ⟨true, false, "/tmp"⟩) = false ∧
    strContains failedStatusMsg "1" = false ∧
    strContains failedStatusMsg "test_script" = false := by
  refine ⟨?_, ?_, ?_, ?_, ?_, ?_, ?_⟩ <;> decide

/-- Run context for one program run: the source consults nothing
run-dependent when generating the script (`_generate_script_content`
reads only the test-mode flag and the platform flag, and the filename is
a fixed literal, not a per-run unique name such as `mkstemp` would
give), which this wrapper makes explicit by taking and ignoring a run
identifier. -/
def generateForRun (_runId : Nat) (isTestMode isWindows : Bool) : String × String :=
  _generate_script_content isTestMode isWindows

/-- The temp-directory path written on a given run. -/
def scriptPathForRun (runId : Nat) (h : Host) : String :=
  h.tempDir ++ "/" ++ (generateForRun runId h.isTestMode h.isWindows).2

/-- C10: the generated script content and filename are a deterministic
pure function of exactly the test-mode and Windows flags — any two runs
under the same flags produce the identical (content, filename) pair and
write to the same fixed temp-directory path — and the filename is one of
the four fixed literals. -/
theorem C10_script_generation_deterministic (r1 r2 : Nat) (t w : Bool) (h : Host) :
    generateForRun r1 t w = generateForRun r2 t w ∧
    scriptPathForRun r1 h = scriptPathForRun r2 h ∧
    (generateForRun r1 t w).2
      = (if t then if w then "test_script.bat" else "test_script.sh"
         else if w then "install_script.bat" else "install_script.sh") := by
  refine ⟨rfl, rfl, ?_⟩
  cases t <;> cases w <;> rfl
